import Mathlib

/-!
Shallow embedding of the cap-me-action extension background engine
(session/step ingestion, retention trimming, and the sync queue), together
with theorems settling the specification's claims about it.

The definitions mirror the service-worker source: `buildStepSignature`,
`findLatestSessionStep`, the STEP_CAPTURED handler core, the
DISCARD_LAST_STEP handler, `saveStore` retention trimming,
`retryDelayMs`, `scheduleSyncAlarm`, `ensureSessionQueued`,
`buildSyncPayload` and `processSyncQueue`.  Time (`Date.now()`), random
identifiers, random jitter and network/auth outcomes are passed in as
explicit parameters.  Timestamps are modelled as `Int` (JS numbers under
signed subtraction), counters as `Nat`.
-/

namespace CapMe

/-- storage caps from the background source: `MAX_SESSIONS`. -/
def MAX_SESSIONS : Nat := 20

/-- storage caps from the background source: `MAX_STEPS`. -/
def MAX_STEPS : Nat := 500

/-- storage caps from the background source: `MAX_EVENT_LOG` (note: 200 in the source). -/
def MAX_EVENT_LOG : Nat := 200

/-- schema version constant `APP_SCHEMA_VERSION`. -/
def APP_SCHEMA_VERSION : String := "1.1.0"

/-- Target element metadata carried by a step (`step.target`). -/
structure Target where
  tag : Option String
  id : Option String
  name : Option String
deriving Repr, DecidableEq

/-- Keyboard modifier flags carried by a step (`step.modifiers`). -/
structure Modifiers where
  ctrl : Bool
  meta : Bool
  alt : Bool
  shift : Bool
deriving Repr, DecidableEq

/-- One normalized interaction step as stored in `store.steps`.  The JS field
`at` is rendered `atTs` (`at` is a Lean keyword); the always-empty
ingestion-side extra lists and the `selectors` object are omitted as no claim
touches them. -/
structure Step where
  id : String
  sessionId : String
  stepIndex : Nat
  type : String
  url : String
  pageTitle : String
  atTs : Int
  key : Option String
  modifiers : Option Modifiers
  value : Option String
  inputType : Option String
  optionValue : Option String
  optionText : Option String
  checked : Option Bool
  scrollX : Option Int
  scrollY : Option Int
  navigationKind : Option String
  fromHref : Option String
  target : Option Target
  thumbnailDataUrl : Option String
deriving Repr, DecidableEq

/-- Per-session sync sub-record (`session.sync`).  `status` is one of
local / pending / synced / failed / blocked, kept as a string as in the JS. -/
structure SessionSync where
  status : String
  revision : Option Nat
  lastSyncedAt : Option Int
  errorCode : Option String
deriving Repr, DecidableEq

/-- Source `defaultSessionSync()`. -/
def defaultSessionSync : SessionSync :=
  { status := "local", revision := none, lastSyncedAt := none, errorCode := none }

/-- One recording session as stored in `store.sessions`. -/
structure Session where
  id : String
  tabId : Int
  startUrl : String
  startTitle : String
  lastUrl : String
  lastTitle : String
  startedAt : Int
  updatedAt : Int
  stepsCount : Nat
  sync : SessionSync
deriving Repr, DecidableEq

/-- Operator sync configuration (`store.syncConfig`); fields not used by any
claim (editorUrl, accountEmail) are omitted. -/
structure SyncConfig where
  enabled : Bool
  autoUploadOnStop : Bool
  endpointUrl : String
  allowedEmails : List String
  maskInputValues : Bool
deriving Repr, DecidableEq

/-- Global sync bookkeeping (`store.syncState`). -/
structure SyncState where
  lastRunAt : Option Int
  successCount : Nat
  failureCount : Nat
  quotaWarning : Bool
  lastErrorCode : Option String
  lastErrorAt : Option Int
deriving Repr, DecidableEq

/-- Source `DEFAULT_SYNC_STATE`. -/
def DEFAULT_SYNC_STATE : SyncState :=
  { lastRunAt := none, successCount := 0, failureCount := 0, quotaWarning := false,
    lastErrorCode := none, lastErrorAt := none }

/-- One outstanding sync obligation (`store.syncQueue` element). -/
structure QueueItem where
  id : String
  sessionId : String
  reason : String
  attempt : Nat
  nextRetryAt : Int
  lastErrorCode : Option String
  lastErrorAt : Option Int
  createdAt : Int
  updatedAt : Int
deriving Repr, DecidableEq

/-- One audit/event log entry (`store.eventLog` element); only the common
shape (type tag and timestamp) is modelled, which is all retention touches. -/
structure EventEntry where
  type : String
  ts : Int
deriving Repr, DecidableEq

/-- The persisted store, restricted to the fields the claims are about. -/
structure Store where
  sessions : List Session
  steps : List Step
  eventLog : List EventEntry
  syncConfig : SyncConfig
  syncQueue : List QueueItem
  syncState : SyncState
deriving Repr, DecidableEq

/-- Mirrors `String(step.checked ?? "")` : JS renders booleans as true/false. -/
def boolFieldStr : Option Bool → String
  | none => ""
  | some true => "true"
  | some false => "false"

/-- Mirrors `String(step.scrollX ?? "")` : JS renders the number, or the empty string. -/
def coordStr : Option Int → String
  | none => ""
  | some n => toString n

/-- Mirrors `m.ctrl ? "1" : "0"` and friends. -/
def flagStr (b : Bool) : String := if b then "1" else "0"

/-- Source `buildStepSignature(step)` : the dedup fingerprint, a |-joined field list. -/
def buildStepSignature (step : Step) : String :=
  let t := step.target.getD { tag := none, id := none, name := none }
  let m := step.modifiers.getD { ctrl := false, meta := false, alt := false, shift := false }
  String.intercalate ("|")
    [ step.type
    , step.url
    , step.pageTitle
    , t.tag.getD ("")
    , t.id.getD ("")
    , t.name.getD ("")
    , step.key.getD ("")
    , step.value.getD ("")
    , step.optionValue.getD ("")
    , boolFieldStr step.checked
    , coordStr step.scrollX
    , coordStr step.scrollY
    , step.navigationKind.getD ("")
    , flagStr m.ctrl
    , flagStr m.meta
    , flagStr m.alt
    , flagStr m.shift ]

/-- Source `findLatestSessionStep(steps, sessionId)` : scan from the end of the array
for the most recent step of the session (rendered as structural recursion:
a match in the tail wins over the head). -/
def findLatestSessionStep : List Step → String → Option Step
  | [], _ => none
  | s :: rest, sessionId =>
    match findLatestSessionStep rest sessionId with
    | some r => some r
    | none => if s.sessionId == sessionId then some s else none

/-- Source `sessionById(sessions, sessionId)`. -/
def sessionById (sessions : List Session) (sessionId : String) : Option Session :=
  sessions.find? (fun x => x.id == sessionId)

/-- Source `queueHasSession(syncQueue, sessionId)`. -/
def queueHasSession (syncQueue : List QueueItem) (sessionId : String) : Bool :=
  syncQueue.any (fun item => item.sessionId == sessionId)

/-- In the JS the session found by `sessionById` is mutated in place; here the
first session with the given id is replaced by its update. -/
def updateFirstSession : List Session → String → (Session → Session) → List Session
  | [], _, _ => []
  | s :: rest, sessionId, f =>
    if s.id == sessionId then f s :: rest
    else s :: updateFirstSession rest sessionId f

/-- Source `markSessionSyncStatus(session, patch)` : the patches used by
the enqueue / failure / discard call sites only touch these two fields. -/
def markStatusErr (s : Session) (status : String) (errorCode : Option String) : Session :=
  { s with sync := { s.sync with status := status, errorCode := errorCode } }

/-- Source `createQueueItem(sessionId, reason)`; the generated id and `nowTs()` are
passed in. -/
def createQueueItem (itemId sessionId reason : String) (now : Int) : QueueItem :=
  { id := itemId, sessionId := sessionId, reason := reason, attempt := 0,
    nextRetryAt := now, lastErrorCode := none, lastErrorAt := none,
    createdAt := now, updatedAt := now }

/-- Source `retryDelayMs(attempt)` with the random jitter draw
(`Math.floor(Math.random() * 15 * 1000)`, a natural below 15000) made an
explicit parameter. -/
def retryDelayMs (attempt : Nat) (jitter : Nat) : Nat :=
  let base := 60 * 1000
  let cappedAttempt := min attempt 8
  let withoutJitter := base * 2 ^ cappedAttempt
  min (withoutJitter + jitter) (60 * 60 * 1000)

/-- The effect of `scheduleSyncAlarm` on the chrome alarm: either the alarm is
cleared, or one alarm is created at an absolute time, with an optional
repetition period in minutes. -/
inductive AlarmAction where
  | clear
  | create (whenAt : Int) (periodInMinutes : Option Nat)
deriving Repr, DecidableEq

/-- The `nextAt` computation of `scheduleSyncAlarm`: map the queue to
`nextRetryAt`, keep the positive ones, sort ascending, take the first. -/
def earliestNextRetry (syncQueue : List QueueItem) : Option Int :=
  ((((syncQueue.map (fun item => item.nextRetryAt)).filter
      (fun ts => decide (0 < ts))).insertionSort (· ≤ ·))).head?

/-- Source `scheduleSyncAlarm(syncQueue)` : clear the alarm when nothing is due ever,
else create the alarm at `max(now + 1000, nextAt)` — with `periodInMinutes: 1`
as in the source. -/
def scheduleSyncAlarm (now : Int) (syncQueue : List QueueItem) : AlarmAction :=
  match earliestNextRetry syncQueue with
  | none => AlarmAction.clear
  | some nextAt => AlarmAction.create (max (now + 1000) nextAt) (some 1)

/-- Result record of `ensureSessionQueued`. -/
structure EnsureResult where
  ok : Bool
  errorCode : Option String
deriving Repr, DecidableEq

/-- Source `ensureSessionQueued(store, sessionId, reason)`; the queue-item id and
`nowTs()` are parameters. -/
def ensureSessionQueued (store : Store) (sessionId reason itemId : String) (now : Int) :
    Store × EnsureResult :=
  match sessionById store.sessions sessionId with
  | none => (store, { ok := false, errorCode := some ("SESSION_NOT_FOUND") })
  | some _ =>
    if !store.syncConfig.enabled then
      let sessions := updateFirstSession store.sessions sessionId
        (fun s => markStatusErr s ("blocked") (some ("SYNC_DISABLED")))
      ({ store with sessions := sessions },
       { ok := false, errorCode := some ("SYNC_DISABLED") })
    else if store.syncConfig.endpointUrl == "" then
      let sessions := updateFirstSession store.sessions sessionId
        (fun s => markStatusErr s ("blocked") (some ("SYNC_ENDPOINT_MISSING")))
      ({ store with sessions := sessions },
       { ok := false, errorCode := some ("SYNC_ENDPOINT_MISSING") })
    else
      let syncQueue :=
        if queueHasSession store.syncQueue sessionId then store.syncQueue
        else store.syncQueue ++ [createQueueItem itemId sessionId reason now]
      let sessions := updateFirstSession store.sessions sessionId
        (fun s => markStatusErr s ("pending") none)
      ({ store with syncQueue := syncQueue, sessions := sessions },
       { ok := true, errorCode := none })

/-- Outcome shape of `uploadSessionToEndpoint` : exactly one of
`{ok: true, revision, uploadedAt}` or `{ok: false, errorCode}`. -/
inductive UploadOutcome where
  | ok (revision : Nat) (uploadedAt : Int)
  | err (errorCode : String)
deriving Repr, DecidableEq

/-- The deterministic precondition prefix of `uploadSessionToEndpoint`: sync
must be enabled and an endpoint configured, short-circuiting before any
network or auth I/O; the auth / HTTP outcome itself comes from the
environment and is passed in as `outcome`. -/
def uploadSessionToEndpoint (syncConfig : SyncConfig) (outcome : UploadOutcome) :
    UploadOutcome :=
  if !syncConfig.enabled then UploadOutcome.err ("SYNC_DISABLED")
  else if syncConfig.endpointUrl == "" then UploadOutcome.err ("SYNC_ENDPOINT_MISSING")
  else outcome

/-- The per-step closure inside `buildSyncPayload` : when masking is on, an
`input`-type step with a truthy (non-null, non-empty) value has its value
replaced by the redaction marker; everything else passes through unchanged. -/
def maskStepValue (maskInputValues : Bool) (step : Step) : Step :=
  if !maskInputValues then step
  else if step.type != "input" then step
  else
    match step.value with
    | none => step
    | some v => if v == "" then step else { step with value := some ("[REDACTED]") }

/-- The outbound payload of `buildSyncPayload` (the `meta` sub-object is
flattened into the record). -/
structure SyncPayload where
  schemaVersion : String
  exportedAt : Int
  session : Session
  steps : List Step
  capturedBy : String
  syncRevision : Nat
deriving Repr, DecidableEq

/-- Source `buildSyncPayload(session, steps, capturedBy, syncRevision, maskInputValues)`. -/
def buildSyncPayload (session : Session) (steps : List Step) (capturedBy : String)
    (syncRevision : Nat) (maskInputValues : Bool) (now : Int) : SyncPayload :=
  { schemaVersion := APP_SCHEMA_VERSION
  , exportedAt := now
  , session := session
  , steps := steps.map (maskStepValue maskInputValues)
  , capturedBy := if capturedBy == "" then "unknown" else capturedBy
  , syncRevision := syncRevision }

/-- Source `appendEventLog(store, event)` : push, then trim to the most recent
`MAX_EVENT_LOG` entries when over the cap. -/
def appendEventLog (log : List EventEntry) (e : EventEntry) : List EventEntry :=
  let log := log ++ [e]
  if log.length > MAX_EVENT_LOG then log.drop (log.length - MAX_EVENT_LOG) else log

/-- Mirrors `Array.prototype.slice(-n)` : keep the last `n` elements. -/
def sliceLast (n : Nat) (l : List α) : List α :=
  l.drop (l.length - n)

/-- The retention part of `saveStore(store)` : on every persisted mutation the
sessions, steps and event log arrays are trimmed to their caps (the remaining
fields are written back unchanged). -/
def saveStore (store : Store) : Store :=
  { store with
    sessions := sliceLast MAX_SESSIONS store.sessions
    steps := sliceLast MAX_STEPS store.steps
    eventLog := sliceLast MAX_EVENT_LOG store.eventLog }

/-- Accumulated effect of the `processSyncQueue` loop: the updated sessions
and sync state, the surviving queue, the `processed` counter and the
`changed` flag. -/
structure DrainResult where
  sessions : List Session
  syncState : SyncState
  syncQueue : List QueueItem
  processed : Nat
  changed : Bool
deriving Repr, DecidableEq

/-- One pass of the `processSyncQueue` loop: skip items not yet due, drop
orphaned items (no matching session) without an upload attempt, and upload
the rest, applying the success / failure transitions.  `outcomeOf` supplies
the auth/network outcome per session id, `jitter` the random backoff
jitter. -/
def processQueueLoop (now : Int) (syncConfig : SyncConfig)
    (outcomeOf : String → UploadOutcome) (jitter : Nat) :
    List Session → SyncState → List QueueItem → DrainResult
  | sessions, syncState, [] =>
    { sessions := sessions, syncState := syncState, syncQueue := [],
      processed := 0, changed := false }
  | sessions, syncState, item :: rest =>
    if now < item.nextRetryAt then
      let r := processQueueLoop now syncConfig outcomeOf jitter sessions syncState rest
      { r with syncQueue := item :: r.syncQueue }
    else
      match sessionById sessions item.sessionId with
      | none =>
        let r := processQueueLoop now syncConfig outcomeOf jitter sessions syncState rest
        { r with changed := true }
      | some _ =>
        match uploadSessionToEndpoint syncConfig (outcomeOf item.sessionId) with
        | UploadOutcome.ok revision uploadedAt =>
          let markSynced : Session → Session := fun s =>
            { s with sync :=
                { s.sync with
                    status := "synced"
                    revision := some revision
                    lastSyncedAt := some uploadedAt
                    errorCode := none } }
          let sessions := updateFirstSession sessions item.sessionId markSynced
          let syncState :=
            { syncState with
                successCount := syncState.successCount + 1
                lastErrorCode := none }
          let r := processQueueLoop now syncConfig outcomeOf jitter sessions syncState rest
          { r with processed := r.processed + 1, changed := true }
        | UploadOutcome.err errorCode =>
          let nextAttempt := item.attempt + 1
          let item' :=
            { item with
                attempt := nextAttempt
                nextRetryAt := now + (retryDelayMs nextAttempt jitter : Int)
                lastErrorCode := some errorCode
                lastErrorAt := some now
                updatedAt := now }
          let sessions := updateFirstSession sessions item.sessionId (fun s =>
            markStatusErr s (if 3 ≤ nextAttempt then "failed" else "pending") (some errorCode))
          let syncState :=
            { syncState with
                failureCount := syncState.failureCount + 1
                quotaWarning := if errorCode == "QUOTA_EXCEEDED" then true else syncState.quotaWarning
                lastErrorCode := some errorCode
                lastErrorAt := some now }
          let r := processQueueLoop now syncConfig outcomeOf jitter sessions syncState rest
          { r with
              syncQueue := item' :: r.syncQueue
              processed := r.processed + 1
              changed := true }

/-- Source `processSyncQueue(trigger)` : drain every due queue item, stamp
`lastRunAt`, append the SYNC_QUEUE_RUN audit entry, and persist via
`saveStore` when anything changed (the in-memory bookkeeping is discarded
otherwise, so the persisted store is returned unchanged). -/
def processSyncQueue (now : Int) (outcomeOf : String → UploadOutcome) (jitter : Nat)
    (store : Store) : Store :=
  let r := processQueueLoop now store.syncConfig outcomeOf jitter
    store.sessions store.syncState store.syncQueue
  if r.changed then
    saveStore
      { store with
        sessions := r.sessions
        syncState := { r.syncState with lastRunAt := some now }
        syncQueue := r.syncQueue
        eventLog := appendEventLog store.eventLog { type := "SYNC_QUEUE_RUN", ts := now } }
  else store

/-- The inbound capture event payload (`message.payload` of STEP_CAPTURED). -/
structure CapturePayload where
  kind : Option String
  href : Option String
  title : Option String
  ts : Option Int
  key : Option String
  modifiers : Option Modifiers
  value : Option String
  inputType : Option String
  optionValue : Option String
  optionText : Option String
  checked : Option Bool
  scrollX : Option Int
  scrollY : Option Int
  navigationKind : Option String
  fromHref : Option String
  target : Option Target
deriving Repr, DecidableEq

/-- The candidate step object literal built by the STEP_CAPTURED handler:
`stepIndex = (session?.stepsCount ?? 0) + 1`, payload fields defaulted as in
the source, thumbnail initially null. -/
def buildCapturedStep (stepId sessionId : String) (stepsCount : Nat)
    (payload : CapturePayload) (now : Int) : Step :=
  { id := stepId
  , sessionId := sessionId
  , stepIndex := stepsCount + 1
  , type := payload.kind.getD ("unknown")
  , url := payload.href.getD ("")
  , pageTitle := payload.title.getD ("")
  , atTs := payload.ts.getD now
  , key := payload.key
  , modifiers := payload.modifiers
  , value := payload.value
  , inputType := payload.inputType
  , optionValue := payload.optionValue
  , optionText := payload.optionText
  , checked := payload.checked
  , scrollX := payload.scrollX
  , scrollY := payload.scrollY
  , navigationKind := payload.navigationKind
  , fromHref := payload.fromHref
  , target := payload.target
  , thumbnailDataUrl := none }

/-- The STEP_CAPTURED handler core (dedup check, step append, session
aggregate bump) for an already-resolved session id.  The generated step id,
thumbnail capture result and `nowTs()` are parameters. -/
def recordCapturedStep (now : Int) (stepId : String) (thumb : Option String)
    (store : Store) (sessionId : String) (payload : CapturePayload) : Store :=
  let session := sessionById store.sessions sessionId
  let step := buildCapturedStep stepId sessionId
    (match session with | some s => s.stepsCount | none => 0) payload now
  let latestSessionStep := findLatestSessionStep store.steps sessionId
  let isDuplicate :=
    match latestSessionStep with
    | none => false
    | some latest =>
      buildStepSignature latest == buildStepSignature step
        && decide (step.atTs - latest.atTs ≤ 800)
  if isDuplicate then store
  else
    let sessions := updateFirstSession store.sessions sessionId (fun s =>
      { s with stepsCount := s.stepsCount + 1
             , updatedAt := step.atTs
             , lastUrl := if step.url == "" then s.lastUrl else step.url
             , lastTitle := if step.pageTitle == "" then s.lastTitle else step.pageTitle
             , sync := { s.sync with
                 status := if store.syncConfig.enabled then "pending" else "local"
               , errorCode := none } })
    { store with
      steps := store.steps ++ [{ step with thumbnailDataUrl := thumb }]
      sessions := sessions }

/-- Result of the DISCARD_LAST_STEP handler. -/
inductive DiscardResult where
  | sessionNotFound
  | notDiscarded
  | discarded (removedStepId : String)
deriving Repr, DecidableEq

/-- The backward index search plus `splice(lastStepIndex, 1)` of the
DISCARD_LAST_STEP handler, rendered as structural recursion: a match found in
the tail (later array position) wins; otherwise a matching head is removed.
Returns the remaining steps and the removed step, if any. -/
def removeLastMatching (sessionId : String) : List Step → List Step × Option Step
  | [] => ([], none)
  | s :: rest =>
    match removeLastMatching sessionId rest with
    | (rest', some r) => (s :: rest', some r)
    | (rest', none) =>
      if s.sessionId == sessionId then (rest, some s) else (s :: rest', none)

/-- The DISCARD_LAST_STEP handler for a resolved session id: remove the most
recent step of the session, recompute the session aggregates from the
remaining set, reset sync status to local, and log.  The handler then
persists via `saveStore`, which is modelled separately (as it is for the
STEP_CAPTURED handler) so that the in-memory mutation and the retention trim
can be examined independently. -/
def discardLastStep (now : Int) (store : Store) (sessionId : String) :
    Store × DiscardResult :=
  match sessionById store.sessions sessionId with
  | none => (store, DiscardResult.sessionNotFound)
  | some _ =>
    match removeLastMatching sessionId store.steps with
    | (_, none) => (store, DiscardResult.notDiscarded)
    | (steps', some removed) =>
      let remaining := steps'.filter (fun x => x.sessionId == sessionId)
      let lastRemaining := remaining.getLast?
      let sessions := updateFirstSession store.sessions sessionId (fun s =>
        { s with stepsCount := remaining.length
               , updatedAt := match lastRemaining with | some r => r.atTs | none => s.startedAt
               , lastUrl := match lastRemaining with | some r => r.url | none => s.startUrl
               , lastTitle := match lastRemaining with | some r => r.pageTitle | none => s.startTitle
               , sync := { s.sync with status := "local", errorCode := none } })
      let store' :=
        { store with
          steps := steps'
          sessions := sessions
          eventLog := appendEventLog store.eventLog { type := "DISCARD_LAST_STEP", ts := now } }
      (store', DiscardResult.discarded removed.id)

/-- Number of stored steps belonging to a session. -/
def countSessionSteps (steps : List Step) (sessionId : String) : Nat :=
  (steps.filter (fun x => x.sessionId == sessionId)).length

/-- The `stepIndex` values of a session's stored steps, in array order. -/
def sessionStepIndices (steps : List Step) (sessionId : String) : List Nat :=
  (steps.filter (fun x => x.sessionId == sessionId)).map (fun x => x.stepIndex)

/-- The dense-run invariant for one session: its stored steps carry
`stepIndex` 1, 2, …, `stepsCount` in array order (in particular the number of
stored steps equals `stepsCount`, and there are no gaps or duplicates). -/
@[reducible] def stepSeqOk (steps : List Step) (session : Session) : Prop :=
  sessionStepIndices steps session.id = List.range' 1 session.stepsCount

/-- The dense-run invariant for every session of the store. -/
@[reducible] def storeStepSeqOk (store : Store) : Prop :=
  ∀ session ∈ store.sessions, stepSeqOk store.steps session

/-- Number of queue items carrying a given session id. -/
def queueCountForSession (syncQueue : List QueueItem) (sessionId : String) : Nat :=
  (syncQueue.filter (fun item => item.sessionId == sessionId)).length

/-- The at-most-one-queue-item-per-session invariant: all queued session ids
are distinct. -/
@[reducible] def queueSessionsNodup (syncQueue : List QueueItem) : Prop :=
  (syncQueue.map (fun item => item.sessionId)).Nodup

/-- The dedup-relevant fingerprint of a capture payload: the signature of any
step built from it (the signature reads no generated field). -/
def payloadSignature (payload : CapturePayload) : String :=
  buildStepSignature (buildCapturedStep ("") ("") 0 payload 0)

/-- Fixture: a sync configuration with sync enabled and an endpoint configured. -/
def cfgOn : SyncConfig :=
  { enabled := true, autoUploadOnStop := false, endpointUrl := "https://sync.example",
    allowedEmails := [], maskInputValues := true }

/-- Fixture: `cfgOn` with the endpoint unset. -/
def cfgNoEndpoint : SyncConfig := { cfgOn with endpointUrl := "" }

/-- Fixture: a minimal session. -/
def mkSession (sessionId : String) (stepsCount : Nat) (status : String) : Session :=
  { id := sessionId, tabId := -1, startUrl := "", startTitle := "", lastUrl := "",
    lastTitle := "", startedAt := 0, updatedAt := 0, stepsCount := stepsCount,
    sync := { defaultSessionSync with status := status } }

/-- Fixture: a minimal stored step. -/
def mkStep (sessionId : String) (i : Nat) (ts : Int) : Step :=
  { id := "st", sessionId := sessionId, stepIndex := i, type := "click", url := "",
    pageTitle := "", atTs := ts, key := none, modifiers := none, value := none,
    inputType := none, optionValue := none, optionText := none, checked := none,
    scrollX := none, scrollY := none, navigationKind := none, fromHref := none,
    target := none, thumbnailDataUrl := none }

/-- Fixture: a minimal capture payload carrying a kind and a timestamp. -/
def mkPayload (t : Int) : CapturePayload :=
  { kind := some ("click"), href := none, title := none, ts := some t, key := none,
    modifiers := none, value := none, inputType := none, optionValue := none,
    optionText := none, checked := none, scrollX := none, scrollY := none,
    navigationKind := none, fromHref := none, target := none }

/-- Fixture: a store assembled from parts, with empty log and default state. -/
def mkStore (sessions : List Session) (steps : List Step) (syncConfig : SyncConfig)
    (syncQueue : List QueueItem) : Store :=
  { sessions := sessions, steps := steps, eventLog := [], syncConfig := syncConfig,
    syncQueue := syncQueue, syncState := DEFAULT_SYNC_STATE }

/-- Fixture: a session owning 501 stored steps, one over the retention cap. -/
def c1Session : Session := mkSession ("A") 501 ("local")

/-- Fixture: the store holding `c1Session` and its 501 dense steps. -/
def c1Store : Store :=
  mkStore [c1Session] ((List.range' 1 501).map (fun i => mkStep ("A") i 0)) cfgOn []

/-- Fixture: a small store satisfying the dense-run invariant. -/
def wStore : Store := mkStore [mkSession ("A") 1 ("local")] [mkStep ("A") 1 0] cfgOn []

/-- Fixture: an empty-session store for the dedup scenario. -/
def c2Store0 : Store := mkStore [mkSession ("A") 0 ("local")] [] cfgOn []

/-- Fixture: `c2Store0` after one captured click at t = 0. -/
def c2Store1 : Store := recordCapturedStep 0 ("s1") none c2Store0 ("A") (mkPayload 0)

/-- Fixture: `c2Store1` after an identical click captured at t = 800. -/
def c2Store2 : Store := recordCapturedStep 800 ("s2") none c2Store1 ("A") (mkPayload 800)

/-- Fixture: a one-item sync queue due at t = 5000. -/
def c3Item : QueueItem := { createQueueItem ("q1") ("A") ("manual") 0 with nextRetryAt := 5000 }

/-- Fixture: a just-created queue item for session A (attempt 0, due at 0). -/
def c4Item : QueueItem := createQueueItem ("q1") ("A") ("manual") 0

/-- Fixture: a queued pending session with sync enabled. -/
def c4Store : Store := mkStore [mkSession ("A") 1 ("pending")] [] cfgOn [c4Item]

/-- Fixture: an upload environment that always reports AUTH_DENIED. -/
def authDeniedOracle : String → UploadOutcome := fun _ => UploadOutcome.err ("AUTH_DENIED")

/-- Fixture: an upload environment that always reports NETWORK_ERROR. -/
def netErrOracle : String → UploadOutcome := fun _ => UploadOutcome.err ("NETWORK_ERROR")

/-- Fixture: an upload environment that always succeeds. -/
def okOracle : String → UploadOutcome := fun _ => UploadOutcome.ok 1 0

/-- Fixture: the C7 scenario start — session A pending, queued at attempt 0. -/
def c7Store0 : Store := mkStore [mkSession ("A") 0 ("pending")] [] cfgOn [c4Item]

/-- Fixture: after the first NETWORK_ERROR drain. -/
def c7Store1 : Store := processSyncQueue 1000000 netErrOracle 0 c7Store0

/-- Fixture: after the second NETWORK_ERROR drain. -/
def c7Store2 : Store := processSyncQueue 2000000 netErrOracle 0 c7Store1

/-- Fixture: after the third NETWORK_ERROR drain. -/
def c7Store3 : Store := processSyncQueue 3000000 netErrOracle 0 c7Store2

/-- Fixture: manual re-enqueue of session A after the three failures. -/
def c7Requeue : Store × EnsureResult :=
  ensureSessionQueued c7Store3 ("A") ("manual-last") ("q2") 3500000

/-- Fixture: a store whose event log holds 101 entries. -/
def c8Store : Store :=
  { mkStore [] [] cfgOn [] with
    eventLog := (List.range 101).map (fun i => { type := "E", ts := (i : Int) }) }

/-- Fixture: an input-type step whose captured value is the empty string. -/
def c9Step : Step := { mkStep ("A") 1 0 with type := "input", value := some ("") }

/-- Fixture: an input-type step carrying a non-empty captured value. -/
def wMaskStep : Step := { mkStep ("A") 1 0 with type := "input", value := some ("secret") }

/-- Fixture: `cfgOn` with sync disabled. -/
def cfgOff : SyncConfig := { cfgOn with enabled := false }

/-- Fixture: a store with one session and the endpoint unset. -/
def c4StoreNoEp : Store := mkStore [mkSession ("A") 1 ("local")] [] cfgNoEndpoint []

/-- Fixture: a store with one session and sync disabled. -/
def c4StoreOff : Store := mkStore [mkSession ("A") 1 ("local")] [] cfgOff []

/-- Fixture: the session held by `c4StoreNoEp` and `c4StoreOff`. -/
def c4s0 : Session := mkSession ("A") 1 ("local")

/-- Fixture: a pending session A, as a one-element session list. -/
def c4s1 : Session := mkSession ("A") 1 ("pending")

/-- Fixture: a due queue item whose session does not exist. -/
def c10Item : QueueItem := createQueueItem ("q9") ("GONE") ("manual") 0

/-- The repetition period of the action taken on the alarm, when one is
armed. -/
def alarmPeriod : AlarmAction → Option (Option Nat)
  | AlarmAction.clear => none
  | AlarmAction.create _ p => some p

/-! Helper lemmas. -/

theorem sliceLast_length {α : Type} (n : Nat) (l : List α) :
    (sliceLast n l).length = min l.length n := by
  simp only [sliceLast, List.length_drop]
  omega

theorem appendEventLog_length (log : List EventEntry) (e : EventEntry) :
    (appendEventLog log e).length = min (log.length + 1) 200 := by
  simp only [appendEventLog, MAX_EVENT_LOG]
  split
  next h =>
    simp only [List.length_append, List.length_cons, List.length_nil] at h
    simp only [List.length_drop, List.length_append, List.length_cons, List.length_nil]
    omega
  next h =>
    simp only [List.length_append, List.length_cons, List.length_nil] at h ⊢
    omega

theorem foldl_appendEventLog_length (events : List EventEntry) :
    ∀ log : List EventEntry, log.length ≤ 200 →
      (events.foldl appendEventLog log).length = min (log.length + events.length) 200 := by
  induction events with
  | nil => intro log h; simp; omega
  | cons e es ih =>
    intro log h
    have h1 := appendEventLog_length log e
    have h2 : (appendEventLog log e).length ≤ 200 := by omega
    have h3 := ih (appendEventLog log e) h2
    simp only [List.foldl_cons, List.length_cons] at h3 ⊢
    omega

/-- C5: the retry delay is exactly min(60 s · 2^min(attempt, 8) + jitter, 1 hour)
for any jitter draw below 15 s; it therefore never exceeds one hour, and it is
non-decreasing in the attempt number even when the smaller attempt draws the
maximal jitter and the larger attempt draws none. -/
theorem C5_retryDelay_backoff (a b ja jb : Nat) (hja : ja < 15000) (hjb : jb < 15000) :
    retryDelayMs a ja = min (60 * 1000 * 2 ^ (min a 8) + ja) (60 * 60 * 1000) ∧
    retryDelayMs a ja ≤ 60 * 60 * 1000 ∧
    (a < b → retryDelayMs a ja ≤ retryDelayMs b jb) := by
  refine ⟨rfl, Nat.min_le_right _ _, fun hab => ?_⟩
  simp only [retryDelayMs]
  by_cases h8 : 8 ≤ a
  · have ha : min a 8 = 8 := Nat.min_eq_right h8
    have hb : min b 8 = 8 := Nat.min_eq_right (le_trans h8 (Nat.le_of_lt hab))
    rw [ha, hb]
    have h1 : (60 * 60 * 1000 : Nat) ≤ 60 * 1000 * 2 ^ 8 + ja := by norm_num; omega
    have h2 : (60 * 60 * 1000 : Nat) ≤ 60 * 1000 * 2 ^ 8 + jb := by norm_num; omega
    rw [Nat.min_eq_right h1, Nat.min_eq_right h2]
  · push_neg at h8
    have ha : min a 8 = a := Nat.min_eq_left (Nat.le_of_lt h8)
    have hmb : a + 1 ≤ min b 8 := le_min hab h8
    have hpow : 60 * 1000 * 2 ^ (a + 1) ≤ 60 * 1000 * 2 ^ (min b 8) :=
      Nat.mul_le_mul_left _ (Nat.pow_le_pow_right (by norm_num) hmb)
    have hsplit : 60 * 1000 * 2 ^ (a + 1) = 60 * 1000 * 2 ^ a + 60 * 1000 * 2 ^ a := by
      rw [pow_succ]; ring
    have hbase : (60 * 1000 : Nat) ≤ 60 * 1000 * 2 ^ a :=
      Nat.le_mul_of_pos_right _ (Nat.pos_pow_of_pos _ (by norm_num))
    have hkey : 60 * 1000 * 2 ^ a + ja ≤ 60 * 1000 * 2 ^ (min b 8) + jb := by omega
    rw [ha]
    exact min_le_min hkey le_rfl

/-- C5 witness: a concrete instance, attempt 2 with maximal jitter against
attempt 5 with zero jitter. -/
theorem C5_retryDelay_backoff_witness :
    14999 < 15000 ∧ 0 < 15000 ∧ retryDelayMs 2 14999 ≤ retryDelayMs 5 0 :=
  ⟨by decide, by decide,
    (C5_retryDelay_backoff 2 5 14999 0 (by decide) (by decide)).2.2 (by decide)⟩

/-- C8 (amended): after every persisted mutation the sessions list retains at
most the 20 most recent entries, the steps list at most the 500 most recent,
and the event log at most the 200 most recent — each a suffix of the
pre-trim list (oldest-first eviction) — and N insertions into the event log
leave exactly min(N, 200) entries. -/
theorem C8_retention_caps (store : Store) (events : List EventEntry) :
    (saveStore store).sessions.length = min store.sessions.length 20 ∧
    (saveStore store).steps.length = min store.steps.length 500 ∧
    (saveStore store).eventLog.length = min store.eventLog.length 200 ∧
    List.IsSuffix (saveStore store).sessions store.sessions ∧
    List.IsSuffix (saveStore store).steps store.steps ∧
    List.IsSuffix (saveStore store).eventLog store.eventLog ∧
    (events.foldl appendEventLog []).length = min events.length 200 := by
  simp only [saveStore]
  refine ⟨sliceLast_length _ _, sliceLast_length _ _, sliceLast_length _ _,
    List.drop_suffix _ _, List.drop_suffix _ _, List.drop_suffix _ _, ?_⟩
  have h := foldl_appendEventLog_length events [] (by simp)
  simpa using h

theorem earliestNextRetry_spec (queue : List QueueItem) (t : Int)
    (h : earliestNextRetry queue = some t) :
    (∀ item ∈ queue, 0 < item.nextRetryAt → t ≤ item.nextRetryAt) ∧
    (∃ item ∈ queue, item.nextRetryAt = t) := by
  unfold earliestNextRetry at h
  set l := (queue.map (fun item => item.nextRetryAt)).filter (fun ts => decide (0 < ts))
    with hl
  set s := l.insertionSort (· ≤ ·) with hs
  have hsorted : List.Sorted (· ≤ ·) s := List.sorted_insertionSort _ _
  have hperm : s.Perm l := List.perm_insertionSort _ _
  have hrest : s = t :: s.tail := (List.cons_head?_tail h).symm
  constructor
  · intro item hmem hpos
    have hinl : item.nextRetryAt ∈ l := by
      rw [hl]
      exact List.mem_filter.mpr ⟨List.mem_map_of_mem _ hmem, by simpa using hpos⟩
    have hins : item.nextRetryAt ∈ s := hperm.mem_iff.mpr hinl
    rw [hrest] at hins hsorted
    rcases List.mem_cons.mp hins with he | hm
    · exact le_of_eq he.symm
    · exact (List.sorted_cons.mp hsorted).1 _ hm
  · have hts : t ∈ s := by rw [hrest]; exact List.mem_cons_self _ _
    have htl : t ∈ l := hperm.mem_iff.mp hts
    rw [hl] at htl
    obtain ⟨hmap, _⟩ := List.mem_filter.mp htl
    obtain ⟨item, hmem, heq⟩ := List.mem_map.mp hmap
    exact ⟨item, hmem, heq⟩

/-- C3 (amended): the scheduler clears the alarm when the queue is empty, and
whenever it computes an earliest positive `nextRetryAt` it arms one alarm at
`max(now + 1 s, nextAt)` — where `nextAt` is a least queued retry time — but
that alarm carries a recurring one-minute period (`periodInMinutes: 1`), not a
single-shot timer as the claim states. -/
theorem C3_syncAlarm_schedule (now : Int) (queue : List QueueItem) (t : Int) :
    (queue = [] → scheduleSyncAlarm now queue = AlarmAction.clear) ∧
    (earliestNextRetry queue = some t →
      scheduleSyncAlarm now queue = AlarmAction.create (max (now + 1000) t) (some 1) ∧
      (∀ item ∈ queue, 0 < item.nextRetryAt → t ≤ item.nextRetryAt) ∧
      (∃ item ∈ queue, item.nextRetryAt = t)) := by
  constructor
  · rintro rfl; rfl
  · intro h
    refine ⟨?_, (earliestNextRetry_spec queue t h).1, (earliestNextRetry_spec queue t h).2⟩
    simp [scheduleSyncAlarm, h]

/-- C3 witness: the empty queue clears the alarm; the one-item queue due at
t = 5000 arms the alarm at 5000 (the least queued time). -/
theorem C3_syncAlarm_schedule_witness :
    (([] : List QueueItem) = [] ∧ earliestNextRetry [c3Item] = some 5000) ∧
    scheduleSyncAlarm 0 [] = AlarmAction.clear ∧
    (scheduleSyncAlarm 0 [c3Item] = AlarmAction.create (max (0 + 1000) 5000) (some 1) ∧
      (∀ item ∈ [c3Item], 0 < item.nextRetryAt → 5000 ≤ item.nextRetryAt) ∧
      (∃ item ∈ [c3Item], item.nextRetryAt = 5000)) :=
  ⟨⟨rfl, by decide⟩, (C3_syncAlarm_schedule 0 [] 0).1 rfl,
    (C3_syncAlarm_schedule 0 [c3Item] 5000).2 (by decide)⟩

/-- C3 counterexample: with one item queued, the armed alarm carries a
one-minute repetition period — the claim requires a single-shot timer (no
period). -/
theorem C3_counterexample :
    alarmPeriod (scheduleSyncAlarm 0 [c3Item]) = some (some 1) ∧
    alarmPeriod (scheduleSyncAlarm 0 [c3Item]) ≠ some none := by
  decide

/-- C10: during a drain, a due queue item whose session id matches no session
is removed without an upload attempt — the loop result equals the result of
draining the remaining items alone (same sessions, same success/failure
counts, same processed counter, no attempt bump anywhere), with only the
`changed` flag set — and an item not yet due is passed through untouched. -/
theorem C10_orphan_removed_notdue_skipped (now : Int) (cfg : SyncConfig)
    (outcomeOf : String → UploadOutcome) (jitter : Nat) (sessions : List Session)
    (syncState : SyncState) (item : QueueItem) (rest : List QueueItem) :
    (item.nextRetryAt ≤ now → sessionById sessions item.sessionId = none →
      processQueueLoop now cfg outcomeOf jitter sessions syncState (item :: rest) =
        { processQueueLoop now cfg outcomeOf jitter sessions syncState rest with
            changed := true }) ∧
    (now < item.nextRetryAt →
      processQueueLoop now cfg outcomeOf jitter sessions syncState (item :: rest) =
        { processQueueLoop now cfg outcomeOf jitter sessions syncState rest with
            syncQueue :=
              item :: (processQueueLoop now cfg outcomeOf jitter sessions
                syncState rest).syncQueue }) := by
  constructor
  · intro hdue hnone
    simp only [processQueueLoop]
    rw [if_neg (by omega), hnone]
  · intro hskip
    simp only [processQueueLoop]
    rw [if_pos hskip]

/-- C10 witness: the due orphaned item `c10Item` is removed from a singleton
queue (no upload, counters untouched), and the same item is left untouched
when not yet due. -/
theorem C10_orphan_removed_notdue_skipped_witness :
    (c10Item.nextRetryAt ≤ 5 ∧
      sessionById [mkSession ("A") 0 ("local")] c10Item.sessionId = none ∧
      (-1 : Int) < c10Item.nextRetryAt) ∧
    processQueueLoop 5 cfgOn okOracle 0 [mkSession ("A") 0 ("local")]
        DEFAULT_SYNC_STATE [c10Item] =
      { processQueueLoop 5 cfgOn okOracle 0 [mkSession ("A") 0 ("local")]
          DEFAULT_SYNC_STATE [] with changed := true } ∧
    processQueueLoop (-1) cfgOn okOracle 0 [mkSession ("A") 0 ("local")]
        DEFAULT_SYNC_STATE [c10Item] =
      { processQueueLoop (-1) cfgOn okOracle 0 [mkSession ("A") 0 ("local")]
          DEFAULT_SYNC_STATE [] with
          syncQueue :=
            c10Item :: (processQueueLoop (-1) cfgOn okOracle 0 [mkSession ("A") 0 ("local")]
              DEFAULT_SYNC_STATE []).syncQueue } :=
  ⟨⟨by decide, by decide, by decide⟩,
    (C10_orphan_removed_notdue_skipped 5 cfgOn okOracle 0 [mkSession ("A") 0 ("local")]
      DEFAULT_SYNC_STATE c10Item []).1 (by decide) (by decide),
    (C10_orphan_removed_notdue_skipped (-1) cfgOn okOracle 0 [mkSession ("A") 0 ("local")]
      DEFAULT_SYNC_STATE c10Item []).2 (by decide)⟩

set_option maxRecDepth 10000

/-- C8 counterexample: a store whose event log holds 101 entries is persisted
with all 101 retained — more than the 100 the claim allows (the source cap is
`MAX_EVENT_LOG = 200`, not 100). -/
theorem C8_counterexample :
    (saveStore c8Store).eventLog.length = 101 ∧
    ¬ (saveStore c8Store).eventLog.length ≤ 100 := by
  decide

/-- C9 (amended): with masking on, the outbound payload replaces the value of
every `input`-type step whose captured value is non-empty by the redaction
marker, leaves every other step (non-input type, absent or empty value, or
masking off) byte-identical, carries the session unchanged — and the queue
drain never writes masked values back: every persisted step after a drain is
a step of the original store (the steps list is at most trimmed by
retention). -/
theorem C9_masking_outbound_only (session : Session) (steps : List Step)
    (capturedBy : String) (rev : Nat) (now : Int) (b : Bool) (step : Step) (v : String)
    (nowd : Int) (outcomeOf : String → UploadOutcome) (jitter : Nat) (store : Store) :
    (buildSyncPayload session steps capturedBy rev true now).steps =
      steps.map (maskStepValue true) ∧
    (buildSyncPayload session steps capturedBy rev b now).session = session ∧
    (step.type = "input" → step.value = some v → v ≠ "" →
      maskStepValue true step = { step with value := some ("[REDACTED]") }) ∧
    (step.type ≠ "input" → maskStepValue true step = step) ∧
    maskStepValue false step = step ∧
    ((processSyncQueue nowd outcomeOf jitter store).steps = sliceLast MAX_STEPS store.steps ∨
      (processSyncQueue nowd outcomeOf jitter store).steps = store.steps) ∧
    (∀ x ∈ (processSyncQueue nowd outcomeOf jitter store).steps, x ∈ store.steps) := by
  refine ⟨rfl, rfl, ?_, ?_, rfl, ?_, ?_⟩
  · intro h1 h2 h3
    simp [maskStepValue, h1, h2, h3]
  · intro h1
    simp [maskStepValue, h1]
  · simp only [processSyncQueue]
    split
    · exact Or.inl rfl
    · exact Or.inr rfl
  · intro x hx
    simp only [processSyncQueue] at hx
    revert hx
    split
    · intro hx
      exact List.mem_of_mem_drop hx
    · intro hx
      exact hx

/-- C9 witness: a non-empty input value is redacted in the outbound copy. -/
theorem C9_masking_outbound_only_witness :
    (wMaskStep.type = "input" ∧ wMaskStep.value = some ("secret") ∧
      ("secret" : String) ≠ "") ∧
    maskStepValue true wMaskStep = { wMaskStep with value := some ("[REDACTED]") } :=
  ⟨⟨rfl, rfl, by decide⟩,
    (C9_masking_outbound_only (mkSession ("A") 1 ("local")) [wMaskStep] ("u") 1 0 true
      wMaskStep ("secret") 0 okOracle 0 wStore).2.2.1 rfl rfl (by decide)⟩

/-- C9 counterexample: an `input` step whose captured value is the empty
string is transmitted unmasked — its value is not replaced by the redaction
marker, contradicting the claim's "every step of type input". -/
theorem C9_counterexample :
    c9Step.type = "input" ∧
    (buildSyncPayload (mkSession ("A") 1 ("local")) [c9Step] ("u") 1 true 0).steps =
      [c9Step] ∧
    c9Step.value ≠ some ("[REDACTED]") := by
  decide

theorem processQueueLoop_sessionIds_sublist (now : Int) (cfg : SyncConfig)
    (outcomeOf : String → UploadOutcome) (jitter : Nat) :
    ∀ (q : List QueueItem) (sessions : List Session) (syncState : SyncState),
      ((processQueueLoop now cfg outcomeOf jitter sessions syncState q).syncQueue.map
        (fun i => i.sessionId)).Sublist (q.map (fun i => i.sessionId))
  | [], _, _ => by simp [processQueueLoop]
  | item :: rest, sessions, syncState => by
    simp only [processQueueLoop]
    split
    · exact List.Sublist.cons₂ _
        (processQueueLoop_sessionIds_sublist now cfg outcomeOf jitter rest sessions syncState)
    · split
      · exact List.Sublist.cons _
          (processQueueLoop_sessionIds_sublist now cfg outcomeOf jitter rest sessions syncState)
      · split
        · exact List.Sublist.cons _
            (processQueueLoop_sessionIds_sublist now cfg outcomeOf jitter rest _ _)
        · exact List.Sublist.cons₂ _
            (processQueueLoop_sessionIds_sublist now cfg outcomeOf jitter rest _ _)

/-- C6: the sync queue never holds two items for one session — re-enqueueing
never duplicates (an already-queued session leaves the queue unchanged), a
fresh enqueue preserves distinctness of queued session ids, and a queue drain
preserves it as well. -/
theorem C6_queue_at_most_one_per_session (store : Store) (sid reason itemId : String)
    (now : Int) (nowd : Int) (cfg : SyncConfig) (outcomeOf : String → UploadOutcome)
    (jitter : Nat) (sessions : List Session) (syncState : SyncState) (q : List QueueItem)
    (h1 : queueSessionsNodup store.syncQueue) (h2 : queueSessionsNodup q) :
    queueSessionsNodup (ensureSessionQueued store sid reason itemId now).1.syncQueue ∧
    (queueHasSession store.syncQueue sid = true →
      (ensureSessionQueued store sid reason itemId now).1.syncQueue = store.syncQueue) ∧
    queueSessionsNodup
      (processQueueLoop nowd cfg outcomeOf jitter sessions syncState q).syncQueue := by
  refine ⟨?_, ?_, h2.sublist (processQueueLoop_sessionIds_sublist nowd cfg outcomeOf jitter
    q sessions syncState)⟩
  · simp only [ensureSessionQueued]
    split
    · exact h1
    · split
      · exact h1
      · split
        · exact h1
        · cases hq : queueHasSession store.syncQueue sid with
          | true =>
            simp only [hq, if_pos]
            exact h1
          | false =>
            have hnot : sid ∉ store.syncQueue.map (fun i => i.sessionId) := by
              intro hmem
              obtain ⟨i, hi, heq⟩ := List.mem_map.mp hmem
              have : queueHasSession store.syncQueue sid = true := by
                simp only [queueHasSession, List.any_eq_true]
                exact ⟨i, hi, by simp [heq]⟩
              rw [hq] at this
              exact Bool.false_ne_true this
            simp only [hq, Bool.false_eq_true, if_false]
            unfold queueSessionsNodup at h1 ⊢
            rw [List.map_append]
            refine (List.perm_append_singleton _ _).nodup_iff.mpr ?_
            exact List.nodup_cons.mpr ⟨hnot, h1⟩
  · intro hq
    simp only [ensureSessionQueued]
    split
    · rfl
    · split
      · rfl
      · split
        · rfl
        · simp only [hq, if_pos]

/-- C6 witness: session A is already queued in `c4Store`; re-enqueueing leaves
the queue unchanged, and both the enqueue and a drain keep the queued session
ids distinct. -/
theorem C6_queue_at_most_one_per_session_witness :
    (queueSessionsNodup c4Store.syncQueue ∧ queueSessionsNodup [c4Item] ∧
      queueHasSession c4Store.syncQueue ("A") = true) ∧
    (queueSessionsNodup (ensureSessionQueued c4Store ("A") ("manual") ("q2") 7).1.syncQueue ∧
      (queueHasSession c4Store.syncQueue ("A") = true →
        (ensureSessionQueued c4Store ("A") ("manual") ("q2") 7).1.syncQueue =
          c4Store.syncQueue) ∧
      queueSessionsNodup
        (processQueueLoop 1000 cfgOn netErrOracle 0 c4Store.sessions
          DEFAULT_SYNC_STATE [c4Item]).syncQueue) :=
  ⟨⟨by decide, by decide, by decide⟩,
    C6_queue_at_most_one_per_session c4Store ("A") ("manual") ("q2") 7 1000 cfgOn
      netErrOracle 0 c4Store.sessions DEFAULT_SYNC_STATE [c4Item] (by decide) (by decide)⟩

theorem sessionById_updateFirstSession (sessions : List Session) (sid : String)
    (f : Session → Session) (hf : ∀ s, (f s).id = s.id) :
    sessionById (updateFirstSession sessions sid f) sid =
      (sessionById sessions sid).map f := by
  induction sessions with
  | nil => rfl
  | cons x rest ih =>
    cases hx : (x.id == sid) with
    | true =>
      have hfx : ((f x).id == sid) = true := by rw [hf x]; exact hx
      simp only [updateFirstSession, hx, if_true, sessionById, List.find?, hfx,
        Option.map_some']
    | false =>
      have hfx : ((f x).id == sid) = false := by rw [hf x]; exact hx
      simp only [updateFirstSession, hx, Bool.false_eq_true, if_false, sessionById,
        List.find?]
      exact ih

theorem retryDelayMs_pos (a j : Nat) : 0 < retryDelayMs a j := by
  have hpow : 0 < 2 ^ (min a 8) := Nat.pos_pow_of_pos _ (by norm_num)
  simp only [retryDelayMs]
  omega

/-- C4 (amended): the terminal-configuration checks live at enqueue time:
`ensureSessionQueued` with the endpoint unset (or sync disabled) marks the
session blocked with the matching error code, reports failure, and creates no
queue item — in particular an enqueue with the endpoint unset leaves the
queue exactly as it was (empty stays empty), never retried.  An upload
*outcome* error (including AUTH_DENIED), by contrast, follows the generic
retry path: the queue item is kept with attempt bumped and a strictly future
`nextRetryAt`, and the session is marked pending (or failed from the third
attempt), never blocked. -/
theorem C4_terminal_config_blocked_at_enqueue (store : Store)
    (sid reason itemId : String) (now : Int) (s0 : Session) (nowd : Int)
    (cfg : SyncConfig) (outcomeOf : String → UploadOutcome) (jitter : Nat)
    (sessions : List Session) (syncState : SyncState) (item : QueueItem)
    (s1 : Session) (code : String) :
    (sessionById store.sessions sid = some s0 → store.syncConfig.enabled = true →
      store.syncConfig.endpointUrl = "" →
        (ensureSessionQueued store sid reason itemId now).1.syncQueue = store.syncQueue ∧
        (ensureSessionQueued store sid reason itemId now).2 =
          { ok := false, errorCode := some ("SYNC_ENDPOINT_MISSING") } ∧
        sessionById (ensureSessionQueued store sid reason itemId now).1.sessions sid =
          some (markStatusErr s0 ("blocked") (some ("SYNC_ENDPOINT_MISSING")))) ∧
    (sessionById store.sessions sid = some s0 → store.syncConfig.enabled = false →
        (ensureSessionQueued store sid reason itemId now).1.syncQueue = store.syncQueue ∧
        (ensureSessionQueued store sid reason itemId now).2 =
          { ok := false, errorCode := some ("SYNC_DISABLED") } ∧
        sessionById (ensureSessionQueued store sid reason itemId now).1.sessions sid =
          some (markStatusErr s0 ("blocked") (some ("SYNC_DISABLED")))) ∧
    (item.nextRetryAt ≤ nowd → sessionById sessions item.sessionId = some s1 →
      outcomeOf item.sessionId = UploadOutcome.err code → cfg.enabled = true →
      cfg.endpointUrl ≠ "" →
        (processQueueLoop nowd cfg outcomeOf jitter sessions syncState [item]).syncQueue =
          [{ item with
              attempt := item.attempt + 1
              nextRetryAt := nowd + (retryDelayMs (item.attempt + 1) jitter : Int)
              lastErrorCode := some code
              lastErrorAt := some nowd
              updatedAt := nowd }] ∧
        nowd < nowd + (retryDelayMs (item.attempt + 1) jitter : Int) ∧
        sessionById
            (processQueueLoop nowd cfg outcomeOf jitter sessions syncState [item]).sessions
            item.sessionId =
          some (markStatusErr s1
            (if 3 ≤ item.attempt + 1 then "failed" else "pending") (some code)) ∧
        (if 3 ≤ item.attempt + 1 then ("failed" : String) else "pending") ≠ "blocked") := by
  refine ⟨?_, ?_, ?_⟩
  · intro hfind hen hep
    have hsb := sessionById_updateFirstSession store.sessions sid
      (fun s => markStatusErr s ("blocked") (some ("SYNC_ENDPOINT_MISSING"))) (fun s => rfl)
    rw [hfind] at hsb
    simp [ensureSessionQueued, hfind, hen, hep, hsb]
  · intro hfind hen
    have hsb := sessionById_updateFirstSession store.sessions sid
      (fun s => markStatusErr s ("blocked") (some ("SYNC_DISABLED"))) (fun s => rfl)
    rw [hfind] at hsb
    simp [ensureSessionQueued, hfind, hen, hsb]
  · intro hdue hfind hout hen hep
    have hep' : (cfg.endpointUrl == "") = false := beq_eq_false_iff_ne.mpr hep
    have hdelay := retryDelayMs_pos (item.attempt + 1) jitter
    have hsb := sessionById_updateFirstSession sessions item.sessionId
      (fun s => markStatusErr s
        (if 3 ≤ item.attempt + 1 then "failed" else "pending") (some code)) (fun s => rfl)
    rw [hfind] at hsb
    simp only [processQueueLoop, if_neg (not_lt.mpr hdue), hfind,
      uploadSessionToEndpoint, hout, hen, Bool.not_true, Bool.false_eq_true, if_false,
      hep']
    refine ⟨by trivial, by omega, hsb, ?_⟩
    split <;> decide

/-- C4 witness: concrete instances of the three branches — endpoint unset,
sync disabled, and an AUTH_DENIED upload outcome. -/
theorem C4_terminal_config_blocked_at_enqueue_witness :
    (sessionById c4StoreNoEp.sessions ("A") = some c4s0 ∧
      c4StoreNoEp.syncConfig.enabled = true ∧
      c4StoreNoEp.syncConfig.endpointUrl = "" ∧
      sessionById c4StoreOff.sessions ("A") = some c4s0 ∧
      c4StoreOff.syncConfig.enabled = false ∧
      c4Item.nextRetryAt ≤ 1000 ∧
      sessionById [c4s1] c4Item.sessionId = some c4s1 ∧
      authDeniedOracle c4Item.sessionId = UploadOutcome.err ("AUTH_DENIED") ∧
      cfgOn.enabled = true ∧ cfgOn.endpointUrl ≠ "") ∧
    ((ensureSessionQueued c4StoreNoEp ("A") ("m") ("q1") 5).1.syncQueue =
        c4StoreNoEp.syncQueue ∧
      (ensureSessionQueued c4StoreNoEp ("A") ("m") ("q1") 5).2 =
        { ok := false, errorCode := some ("SYNC_ENDPOINT_MISSING") } ∧
      sessionById (ensureSessionQueued c4StoreNoEp ("A") ("m") ("q1") 5).1.sessions ("A") =
        some (markStatusErr c4s0 ("blocked") (some ("SYNC_ENDPOINT_MISSING")))) ∧
    ((ensureSessionQueued c4StoreOff ("A") ("m") ("q1") 5).1.syncQueue =
        c4StoreOff.syncQueue ∧
      (ensureSessionQueued c4StoreOff ("A") ("m") ("q1") 5).2 =
        { ok := false, errorCode := some ("SYNC_DISABLED") } ∧
      sessionById (ensureSessionQueued c4StoreOff ("A") ("m") ("q1") 5).1.sessions ("A") =
        some (markStatusErr c4s0 ("blocked") (some ("SYNC_DISABLED")))) ∧
    ((processQueueLoop 1000 cfgOn authDeniedOracle 0 [c4s1] DEFAULT_SYNC_STATE
        [c4Item]).syncQueue =
      [{ c4Item with
          attempt := c4Item.attempt + 1
          nextRetryAt := 1000 + (retryDelayMs (c4Item.attempt + 1) 0 : Int)
          lastErrorCode := some ("AUTH_DENIED")
          lastErrorAt := some 1000
          updatedAt := 1000 }] ∧
      (1000 : Int) < 1000 + (retryDelayMs (c4Item.attempt + 1) 0 : Int) ∧
      sessionById
          (processQueueLoop 1000 cfgOn authDeniedOracle 0 [c4s1] DEFAULT_SYNC_STATE
            [c4Item]).sessions c4Item.sessionId =
        some (markStatusErr c4s1
          (if 3 ≤ c4Item.attempt + 1 then "failed" else "pending")
          (some ("AUTH_DENIED"))) ∧
      (if 3 ≤ c4Item.attempt + 1 then ("failed" : String) else "pending") ≠ "blocked") :=
  ⟨⟨by decide, by decide, by decide, by decide, by decide, by decide, by decide,
      by decide, by decide, by decide⟩,
    (C4_terminal_config_blocked_at_enqueue c4StoreNoEp ("A") ("m") ("q1") 5 c4s0 1000
      cfgOn authDeniedOracle 0 [c4s1] DEFAULT_SYNC_STATE c4Item c4s1
      ("AUTH_DENIED")).1 (by decide) (by decide) (by decide),
    (C4_terminal_config_blocked_at_enqueue c4StoreOff ("A") ("m") ("q1") 5 c4s0 1000
      cfgOn authDeniedOracle 0 [c4s1] DEFAULT_SYNC_STATE c4Item c4s1
      ("AUTH_DENIED")).2.1 (by decide) (by decide),
    (C4_terminal_config_blocked_at_enqueue c4StoreNoEp ("A") ("m") ("q1") 5 c4s0 1000
      cfgOn authDeniedOracle 0 [c4s1] DEFAULT_SYNC_STATE c4Item c4s1
      ("AUTH_DENIED")).2.2 (by decide) (by decide) (by decide) (by decide) (by decide)⟩

/-- C4 counterexample: an AUTH_DENIED upload outcome during a drain leaves the
session `pending` — not `blocked` — and keeps the queue item with a future
`nextRetryAt` (a scheduled retry), contradicting the claim's "no retry is
scheduled and the status becomes blocked" for upload outcomes. -/
theorem C4_counterexample :
    (processSyncQueue 1000 authDeniedOracle 0 c4Store).sessions.map
        (fun s => s.sync.status) = [("pending" : String)] ∧
    ¬ (processSyncQueue 1000 authDeniedOracle 0 c4Store).sessions.map
        (fun s => s.sync.status) = [("blocked" : String)] ∧
    (processSyncQueue 1000 authDeniedOracle 0 c4Store).syncQueue.map
        (fun i => i.nextRetryAt) = [(121000 : Int)] ∧
    (1000 : Int) < 121000 := by
  decide

/-- C7 (amended): starting from a queued pending session at attempt 0, three
consecutive NETWORK_ERROR upload outcomes drive the session through
pending, pending, failed with the queue item's attempt counter reaching 3;
a subsequent manual re-enqueue succeeds and refreshes the session status to
pending, but it leaves the existing queue item in place — the attempt
counter stays at 3 and is not reset to 0. -/
theorem C7_three_failures_then_requeue :
    c7Store1.sessions.map (fun s => s.sync.status) = [("pending" : String)] ∧
    c7Store2.sessions.map (fun s => s.sync.status) = [("pending" : String)] ∧
    c7Store3.sessions.map (fun s => s.sync.status) = [("failed" : String)] ∧
    c7Store3.syncQueue.map (fun i => i.attempt) = [3] ∧
    c7Requeue.2.ok = true ∧
    c7Requeue.1.syncQueue = c7Store3.syncQueue ∧
    c7Requeue.1.sessions.map (fun s => s.sync.status) = [("pending" : String)] := by
  decide

/-- C7 counterexample: after the manual re-enqueue the queue item's attempt
counter is still 3, not the 0 the claim asserts. -/
theorem C7_counterexample :
    c7Requeue.1.syncQueue.map (fun i => i.attempt) = [3] ∧
    ¬ c7Requeue.1.syncQueue.map (fun i => i.attempt) = [0] := by
  decide

theorem buildCapturedStep_sessionId (stepId sessionId : String) (n : Nat)
    (p : CapturePayload) (now : Int) :
    (buildCapturedStep stepId sessionId n p now).sessionId = sessionId := rfl

theorem buildCapturedStep_atTs (stepId sessionId : String) (n : Nat)
    (p : CapturePayload) (now : Int) :
    (buildCapturedStep stepId sessionId n p now).atTs = p.ts.getD now := rfl

theorem buildStepSignature_buildCapturedStep (stepId sessionId : String) (n : Nat)
    (p : CapturePayload) (now : Int) :
    buildStepSignature (buildCapturedStep stepId sessionId n p now) =
      payloadSignature p := rfl

theorem thumbPatch_sessionId (s : Step) (t : Option String) :
    ({ s with thumbnailDataUrl := t } : Step).sessionId = s.sessionId := rfl

theorem thumbPatch_atTs (s : Step) (t : Option String) :
    ({ s with thumbnailDataUrl := t } : Step).atTs = s.atTs := rfl

theorem buildStepSignature_thumbPatch (s : Step) (t : Option String) :
    buildStepSignature ({ s with thumbnailDataUrl := t } : Step) =
      buildStepSignature s := rfl

theorem filter_eq_nil_of_findLatest_none (steps : List Step) (sid : String)
    (h : findLatestSessionStep steps sid = none) :
    steps.filter (fun x => x.sessionId == sid) = [] := by
  induction steps with
  | nil => rfl
  | cons s rest ih =>
    simp only [findLatestSessionStep] at h
    cases hr : findLatestSessionStep rest sid with
    | some r => rw [hr] at h; exact absurd h (by simp)
    | none =>
      rw [hr] at h
      cases hs : (s.sessionId == sid) with
      | true => rw [hs] at h; simp at h
      | false => simp only [List.filter_cons, hs, Bool.false_eq_true, if_false]; exact ih hr

theorem findLatestSessionStep_append (l : List Step) (s : Step) (sid : String) :
    findLatestSessionStep (l ++ [s]) sid =
      if s.sessionId == sid then some s else findLatestSessionStep l sid := by
  induction l with
  | nil =>
    simp only [List.nil_append, findLatestSessionStep]
  | cons x rest ih =>
    simp only [List.cons_append, findLatestSessionStep, List.append_eq]
    rw [ih]
    cases hs : (s.sessionId == sid) with
    | true => simp [hs]
    | false => simp [hs]

/-- The STEP_CAPTURED handler with no previous step of the session: the
candidate is always accepted and appended. -/
theorem recordCapturedStep_of_latest_none (now : Int) (stepId : String)
    (thumb : Option String) (store : Store) (sid : String) (p : CapturePayload)
    (h : findLatestSessionStep store.steps sid = none) :
    (recordCapturedStep now stepId thumb store sid p).steps =
      store.steps ++
        [{ buildCapturedStep stepId sid
            (match sessionById store.sessions sid with
              | some s => s.stepsCount
              | none => 0) p now with thumbnailDataUrl := thumb }] := by
  simp only [recordCapturedStep, h, Bool.false_eq_true, if_false]

/-- The STEP_CAPTURED handler against a latest step with the same signature
captured at most 800 ms before the candidate: the whole store is returned
unchanged. -/
theorem recordCapturedStep_of_duplicate (now : Int) (stepId : String)
    (thumb : Option String) (store : Store) (sid : String) (p : CapturePayload)
    (latest : Step) (h : findLatestSessionStep store.steps sid = some latest)
    (hsig : buildStepSignature latest = payloadSignature p)
    (hts : p.ts.getD now - latest.atTs ≤ 800) :
    recordCapturedStep now stepId thumb store sid p = store := by
  simp only [recordCapturedStep, h, buildStepSignature_buildCapturedStep, hsig,
    beq_self_eq_true, buildCapturedStep_atTs, Bool.true_and, decide_eq_true hts, if_true]

/-- The STEP_CAPTURED handler against a latest step captured strictly more
than 800 ms before the candidate: the candidate is accepted and appended. -/
theorem recordCapturedStep_of_far (now : Int) (stepId : String)
    (thumb : Option String) (store : Store) (sid : String) (p : CapturePayload)
    (latest : Step) (h : findLatestSessionStep store.steps sid = some latest)
    (hts : 800 < p.ts.getD now - latest.atTs) :
    (recordCapturedStep now stepId thumb store sid p).steps =
      store.steps ++
        [{ buildCapturedStep stepId sid
            (match sessionById store.sessions sid with
              | some s => s.stepsCount
              | none => 0) p now with thumbnailDataUrl := thumb }] := by
  have hd : decide (p.ts.getD now - latest.atTs ≤ 800) = false :=
    decide_eq_false (by omega)
  simp only [recordCapturedStep, h, buildCapturedStep_atTs, hd, Bool.and_false,
    Bool.false_eq_true, if_false]

/-- C2 (amended): in a session with no prior step, a first captured event is
stored; a second event with the identical dedup signature is discarded as a
duplicate — with no mutation at all — when its timestamp is at most 800 ms
after the first (the source compares with ≤ 800, so a gap of exactly 800 ms
is still discarded), and it is stored as a second step when the gap is
strictly greater than 800 ms. -/
theorem C2_dedup_signature_window (store : Store) (sid id1 id2 : String)
    (p1 p2 : CapturePayload) (th1 th2 : Option String) (now1 now2 : Int)
    (h0 : findLatestSessionStep store.steps sid = none)
    (hsig : payloadSignature p1 = payloadSignature p2) :
    countSessionSteps (recordCapturedStep now1 id1 th1 store sid p1).steps sid = 1 ∧
    (p2.ts.getD now2 - p1.ts.getD now1 ≤ 800 →
      recordCapturedStep now2 id2 th2 (recordCapturedStep now1 id1 th1 store sid p1) sid
          p2 =
        recordCapturedStep now1 id1 th1 store sid p1) ∧
    (800 < p2.ts.getD now2 - p1.ts.getD now1 →
      countSessionSteps
        (recordCapturedStep now2 id2 th2 (recordCapturedStep now1 id1 th1 store sid p1)
          sid p2).steps sid = 2) := by
  have hfil : store.steps.filter (fun x => x.sessionId == sid) = [] :=
    filter_eq_nil_of_findLatest_none store.steps sid h0
  have hsteps1 := recordCapturedStep_of_latest_none now1 id1 th1 store sid p1 h0
  have hlatest1 :
      findLatestSessionStep (recordCapturedStep now1 id1 th1 store sid p1).steps sid =
        some ({ buildCapturedStep id1 sid
            (match sessionById store.sessions sid with
              | some s => s.stepsCount
              | none => 0) p1 now1 with thumbnailDataUrl := th1 }) := by
    rw [hsteps1, findLatestSessionStep_append]
    simp [thumbPatch_sessionId, buildCapturedStep_sessionId]
  have hcount1 : countSessionSteps (recordCapturedStep now1 id1 th1 store sid p1).steps
      sid = 1 := by
    rw [countSessionSteps, hsteps1, List.filter_append, hfil]
    simp [thumbPatch_sessionId, buildCapturedStep_sessionId]
  refine ⟨hcount1, ?_, ?_⟩
  · intro hle
    refine recordCapturedStep_of_duplicate now2 id2 th2 _ sid p2 _ hlatest1 ?_ ?_
    · rw [buildStepSignature_thumbPatch, buildStepSignature_buildCapturedStep]
      exact hsig
    · rw [thumbPatch_atTs, buildCapturedStep_atTs]
      exact hle
  · intro hgt
    have hsteps2 := recordCapturedStep_of_far now2 id2 th2
      (recordCapturedStep now1 id1 th1 store sid p1) sid p2 _ hlatest1
      (by rw [thumbPatch_atTs, buildCapturedStep_atTs]; exact hgt)
    rw [countSessionSteps, hsteps2, List.filter_append, hsteps1, List.filter_append, hfil]
    simp [thumbPatch_sessionId, buildCapturedStep_sessionId]

/-- C2 witness: two identical clicks 500 ms apart yield one stored step; with
a 900 ms gap the second is stored as well. -/
theorem C2_dedup_signature_window_witness :
    (findLatestSessionStep c2Store0.steps ("A") = none ∧
      payloadSignature (mkPayload 0) = payloadSignature (mkPayload 500) ∧
      payloadSignature (mkPayload 0) = payloadSignature (mkPayload 900) ∧
      (mkPayload 500).ts.getD 0 - (mkPayload 0).ts.getD 0 ≤ 800 ∧
      800 < (mkPayload 900).ts.getD 0 - (mkPayload 0).ts.getD 0) ∧
    countSessionSteps (recordCapturedStep 0 ("s1") none c2Store0 ("A")
      (mkPayload 0)).steps ("A") = 1 ∧
    recordCapturedStep 500 ("s2") none
        (recordCapturedStep 0 ("s1") none c2Store0 ("A") (mkPayload 0)) ("A")
        (mkPayload 500) =
      recordCapturedStep 0 ("s1") none c2Store0 ("A") (mkPayload 0) ∧
    countSessionSteps
      (recordCapturedStep 900 ("s3") none
        (recordCapturedStep 0 ("s1") none c2Store0 ("A") (mkPayload 0)) ("A")
        (mkPayload 900)).steps ("A") = 2 :=
  ⟨⟨rfl, rfl, rfl, by decide, by decide⟩,
    (C2_dedup_signature_window c2Store0 ("A") ("s1") ("s2") (mkPayload 0) (mkPayload 500)
      none none 0 500 rfl rfl).1,
    (C2_dedup_signature_window c2Store0 ("A") ("s1") ("s2") (mkPayload 0) (mkPayload 500)
      none none 0 500 rfl rfl).2.1 (by decide),
    (C2_dedup_signature_window c2Store0 ("A") ("s1") ("s3") (mkPayload 0) (mkPayload 900)
      none none 0 900 rfl rfl).2.2 (by decide)⟩

/-- C2 counterexample: two identical events exactly 800 ms apart — the claim
says "800 ms or more apart produce two stored steps", but the source discards
the second (the comparison is ≤ 800), leaving one stored step. -/
theorem C2_counterexample :
    (mkPayload 800).ts.getD 800 - (mkPayload 0).ts.getD 0 = 800 ∧
    countSessionSteps c2Store1.steps ("A") = 1 ∧
    countSessionSteps c2Store2.steps ("A") = 1 ∧
    c2Store2 = c2Store1 := by
  decide

theorem thumbPatch_stepIndex (s : Step) (t : Option String) :
    ({ s with thumbnailDataUrl := t } : Step).stepIndex = s.stepIndex := rfl

theorem buildCapturedStep_stepIndex (stepId sessionId : String) (n : Nat)
    (p : CapturePayload) (now : Int) :
    (buildCapturedStep stepId sessionId n p now).stepIndex = n + 1 := rfl

theorem mem_updateFirstSession {sessions : List Session} {sid : String}
    {f : Session → Session} {s' : Session}
    (hnd : (sessions.map (fun s => s.id)).Nodup)
    (hmem : s' ∈ updateFirstSession sessions sid f) :
    (s'.id ≠ sid ∧ s' ∈ sessions) ∨
      (∃ s0, sessionById sessions sid = some s0 ∧ s' = f s0) := by
  induction sessions with
  | nil => simp [updateFirstSession] at hmem
  | cons x rest ih =>
    rw [List.map_cons, List.nodup_cons] at hnd
    obtain ⟨hxnot, hndr⟩ := hnd
    cases hx : (x.id == sid) with
    | true =>
      have hxid : x.id = sid := by simpa using hx
      simp only [updateFirstSession, hx, if_true] at hmem
      rcases List.mem_cons.mp hmem with rfl | hmr
      · right
        refine ⟨x, ?_, rfl⟩
        simp only [sessionById, List.find?, hx]
      · left
        refine ⟨?_, List.mem_cons_of_mem _ hmr⟩
        intro he
        exact hxnot (by rw [hxid, ← he]; exact List.mem_map_of_mem _ hmr)
    | false =>
      simp only [updateFirstSession, hx, Bool.false_eq_true, if_false] at hmem
      rcases List.mem_cons.mp hmem with rfl | hmr
      · exact Or.inl ⟨by simpa using hx, List.mem_cons_self _ _⟩
      · rcases ih hndr hmr with ⟨hne, hm⟩ | ⟨s0, hfind, heq⟩
        · exact Or.inl ⟨hne, List.mem_cons_of_mem _ hm⟩
        · refine Or.inr ⟨s0, ?_, heq⟩
          simp only [sessionById, List.find?, hx]
          exact hfind

theorem removeLastMatching_none (sid : String) (steps : List Step)
    (h : (removeLastMatching sid steps).2 = none) :
    steps.filter (fun x => x.sessionId == sid) = [] := by
  induction steps with
  | nil => rfl
  | cons s rest ih =>
    cases hr : removeLastMatching sid rest with
    | mk rest' o =>
      cases o with
      | some r => simp [removeLastMatching, hr] at h
      | none =>
        cases hs : (s.sessionId == sid) with
        | true => simp [removeLastMatching, hr, hs] at h
        | false =>
          simp only [List.filter_cons, hs, Bool.false_eq_true, if_false]
          exact ih (by rw [hr])

theorem removeLastMatching_some (sid : String) :
    ∀ (steps steps' : List Step) (r : Step),
      removeLastMatching sid steps = (steps', some r) →
      ∃ l1 l2, steps = l1 ++ r :: l2 ∧ steps' = l1 ++ l2 ∧
        (∀ x ∈ l2, (x.sessionId == sid) = false) ∧ (r.sessionId == sid) = true
  | [], steps', r => by
    intro h
    simp [removeLastMatching] at h
  | s :: rest, steps', r => by
    intro h
    cases hr : removeLastMatching sid rest with
    | mk rest' o =>
      cases o with
      | some r0 =>
        simp only [removeLastMatching, hr, Prod.mk.injEq, Option.some.injEq] at h
        obtain ⟨hq, hr0⟩ := h
        obtain ⟨l1, l2, a1, a2, a3, a4⟩ := removeLastMatching_some sid rest rest' r0 hr
        subst hr0
        exact ⟨s :: l1, l2, by rw [List.cons_append, ← a1], by rw [← hq, List.cons_append, ← a2],
          a3, a4⟩
      | none =>
        cases hs : (s.sessionId == sid) with
        | true =>
          simp only [removeLastMatching, hr, hs, if_true, Prod.mk.injEq,
            Option.some.injEq] at h
          obtain ⟨hq, hrs⟩ := h
          subst hrs
          refine ⟨[], rest, by simp, by simp [hq], ?_, hs⟩
          intro x hx
          have hfil := removeLastMatching_none sid rest (by rw [hr])
          have := List.filter_eq_nil_iff.mp hfil x hx
          cases hxb : (x.sessionId == sid) with
          | true => exact absurd hxb this
          | false => rfl
        | false =>
          simp [removeLastMatching, hr, hs] at h

theorem stepSeqOk_append_other (steps : List Step) (session : Session) (st : Step)
    (h : stepSeqOk steps session) (hne : st.sessionId ≠ session.id) :
    stepSeqOk (steps ++ [st]) session := by
  unfold stepSeqOk sessionStepIndices at h ⊢
  rw [List.filter_append]
  have hnil : [st].filter (fun x => x.sessionId == session.id) = [] := by
    simp [hne]
  rw [hnil, List.append_nil]
  exact h

theorem stepSeqOk_append_next (steps : List Step) (session : Session) (st : Step)
    (h : stepSeqOk steps session) (hid : st.sessionId = session.id)
    (hidx : st.stepIndex = session.stepsCount + 1) :
    sessionStepIndices (steps ++ [st]) session.id =
      List.range' 1 (session.stepsCount + 1) := by
  unfold stepSeqOk at h
  unfold sessionStepIndices at h ⊢
  rw [List.filter_append]
  have hone : [st].filter (fun x => x.sessionId == session.id) = [st] := by
    simp [hid]
  rw [hone, List.map_append, h, List.range'_concat]
  simp only [List.map_cons, List.map_nil]
  have : 1 + 1 * session.stepsCount = session.stepsCount + 1 := by omega
  rw [this, hidx]

theorem filter_removeLastMatching_other {sid sid' : String} (hne : sid' ≠ sid)
    {steps steps' : List Step} {r : Step}
    (h : removeLastMatching sid steps = (steps', some r)) :
    steps'.filter (fun x => x.sessionId == sid') =
      steps.filter (fun x => x.sessionId == sid') := by
  obtain ⟨l1, l2, h1, h2, _, h4⟩ := removeLastMatching_some sid steps steps' r h
  have hrne : (r.sessionId == sid') = false := by
    have hrsid : r.sessionId = sid := by simpa using h4
    simp only [hrsid]
    exact beq_eq_false_iff_ne.mpr (fun he => hne he.symm)
  subst h1 h2
  simp [List.filter_append, List.filter_cons, hrne]

theorem filter_removeLastMatching_same {sid : String} {steps steps' : List Step} {r : Step}
    (h : removeLastMatching sid steps = (steps', some r)) :
    steps.filter (fun x => x.sessionId == sid) =
      steps'.filter (fun x => x.sessionId == sid) ++ [r] := by
  obtain ⟨l1, l2, h1, h2, h3, h4⟩ := removeLastMatching_some sid steps steps' r h
  have hl2 : l2.filter (fun x => x.sessionId == sid) = [] :=
    List.filter_eq_nil_iff.mpr (fun x hx => by rw [h3 x hx]; simp)
  subst h1 h2
  simp [List.filter_append, List.filter_cons, h4, hl2]

/-- The STEP_CAPTURED handler core preserves the dense-run invariant (for the
captured session the accepted step extends the run by one and bumps
`stepsCount`; a discarded duplicate changes nothing; sessions with other ids
keep their runs). -/
theorem recordCapturedStep_stepSeqOk (store : Store)
    (hnd : (store.sessions.map (fun s => s.id)).Nodup)
    (hinv : storeStepSeqOk store) (now : Int) (stepId : String)
    (thumb : Option String) (sid : String) (p : CapturePayload) :
    storeStepSeqOk (recordCapturedStep now stepId thumb store sid p) := by
  simp only [recordCapturedStep]
  split
  · exact hinv
  · intro session hmem
    simp only at hmem
    rcases mem_updateFirstSession hnd hmem with ⟨hne, hm⟩ | ⟨s0, hfind, rfl⟩
    · refine stepSeqOk_append_other store.steps session _ (hinv session hm) ?_
      rw [thumbPatch_sessionId, buildCapturedStep_sessionId]
      exact fun he => hne he.symm
    · have hs0id : s0.id = sid := by
        simpa using List.find?_some hfind
      have hs0mem : s0 ∈ store.sessions := List.mem_of_find?_eq_some hfind
      show stepSeqOk _ _
      unfold stepSeqOk
      refine stepSeqOk_append_next store.steps s0 _ (hinv s0 hs0mem) ?_ ?_
      · rw [thumbPatch_sessionId, buildCapturedStep_sessionId, hs0id]
      · rw [thumbPatch_stepIndex, buildCapturedStep_stepIndex]
        simp only [hfind]

/-- The DISCARD_LAST_STEP handler preserves the dense-run invariant (the
removed step is the session's last, leaving the run 1..N-1, and
`stepsCount` is recomputed from the remaining set; other sessions are
untouched). -/
theorem discardLastStep_stepSeqOk (store : Store)
    (hnd : (store.sessions.map (fun s => s.id)).Nodup)
    (hinv : storeStepSeqOk store) (now : Int) (sid : String) :
    storeStepSeqOk (discardLastStep now store sid).1 := by
  simp only [discardLastStep]
  split
  · exact hinv
  · split
    · exact hinv
    · next steps' removed heq =>
      intro session hmem
      simp only at hmem
      rcases mem_updateFirstSession hnd hmem with ⟨hne, hm⟩ | ⟨s0, hfind, rfl⟩
      · have hbase := hinv session hm
        unfold stepSeqOk sessionStepIndices at hbase ⊢
        simp only
        rw [filter_removeLastMatching_other hne heq]
        exact hbase
      · have hs0id : s0.id = sid := by
          simpa using List.find?_some hfind
        have hs0mem : s0 ∈ store.sessions := List.mem_of_find?_eq_some hfind
        have hbase := hinv s0 hs0mem
        unfold stepSeqOk sessionStepIndices at hbase ⊢
        simp only
        rw [hs0id] at hbase
        rw [filter_removeLastMatching_same heq, List.map_append] at hbase
        rw [hs0id]
        cases hN : s0.stepsCount with
        | zero =>
          rw [hN] at hbase
          simp at hbase
        | succ M =>
          rw [hN, List.range'_concat] at hbase
          obtain ⟨hA, _⟩ := List.append_inj' hbase rfl
          have hlen : (steps'.filter (fun x => x.sessionId == sid)).length = M := by
            have := congrArg List.length hA
            simpa using this
          rw [hlen]
          exact hA

/-- C1 (amended): in a store with distinct session ids satisfying the
dense-run invariant, both mutation handlers — step insert (STEP_CAPTURED)
and DISCARD_LAST_STEP — preserve it: every session's stored steps carry
`stepIndex` 1..stepsCount with no gaps or duplicates, and `stepsCount`
equals the number of stored steps of that session.  The persisted retention
trim, however, does not preserve it (see the counterexample), so the claim
holds for insert and discard but not for the trim. -/
theorem C1_stepIndex_dense_after_insert_discard (store : Store)
    (hnd : (store.sessions.map (fun s => s.id)).Nodup)
    (hinv : storeStepSeqOk store) (now nowd : Int) (stepId : String)
    (thumb : Option String) (sid sidd : String) (p : CapturePayload) :
    storeStepSeqOk (recordCapturedStep now stepId thumb store sid p) ∧
    storeStepSeqOk (discardLastStep nowd store sidd).1 :=
  ⟨recordCapturedStep_stepSeqOk store hnd hinv now stepId thumb sid p,
    discardLastStep_stepSeqOk store hnd hinv nowd sidd⟩

/-- C1 witness: a one-session, one-step store; capturing a further step and
discarding the last step both preserve the dense run. -/
theorem C1_stepIndex_dense_after_insert_discard_witness :
    ((wStore.sessions.map (fun s => s.id)).Nodup ∧ storeStepSeqOk wStore) ∧
    (storeStepSeqOk (recordCapturedStep 10 ("s2") none wStore ("A") (mkPayload 10)) ∧
      storeStepSeqOk (discardLastStep 10 wStore ("A")).1) :=
  ⟨⟨by decide, by decide⟩,
    C1_stepIndex_dense_after_insert_discard wStore (by decide) (by decide) 10 10 ("s2")
      none ("A") ("A") (mkPayload 10)⟩

set_option maxRecDepth 100000

/-- C1 counterexample: a session with 501 dense steps satisfies the invariant,
but the persisted retention trim (`saveStore`, `steps.slice(-500)`) drops the
oldest step, leaving indices 2..501 and a stale `stepsCount` of 501 — the
claim's "after any mutation (… or persisted retention trim)" is false. -/
theorem C1_counterexample :
    storeStepSeqOk c1Store ∧ ¬ storeStepSeqOk (saveStore c1Store) := by
  decide

end CapMe
